import Mathlib

/-!
Verification of the xbmgmt2 dump subcommand (SubCmdDump.cpp).

The file shallowly embeds the four routines of the translation unit:

* flash_dump   - opens a Flasher for the device id and streams the flash image
* is_supported - probes the manufacturing / recovery restricted state
* config_dump  - builds the configuration snapshot and serializes it as an INI file
* execute      - the SubCmdDump dispatcher (help short-circuit, device resolution,
                 output guard, mode dispatch)

External collaborators are modelled by their observable interface:

* a device query (xrt_core::device_query) either answers a value or raises
  xrt_core::query::exception; each query request is one Option field of Device,
  with none standing for the raised query exception;
* the Flasher is summarized by its validity bit and the outcome of readBack;
* get_device either resolves a device or raises std::runtime_error;
* boost::filesystem::exists and XBU::getForce are booleans of the environment.

Observable effects are returned explicitly: the exception propagating out of a
routine (if any), the lines printed to the standard output and error streams,
the file written at the output path (none when no write happened), and, for the
dispatcher, which dump path was entered.
-/

/-- Exceptions that can propagate out of the embedded routines.
`queryExn` is xrt_core::query::exception raised by an unanswerable device query;
`opCanceled` is xrt_core::error constructed from std::errc::operation_canceled. -/
inductive Exn where
  | queryExn
  | opCanceled
deriving DecidableEq, Repr

/-- Content written at the output path: an INI file (one named section holding
ordered key = value entries, as produced by boost write_ini on the property
tree) or the opaque flash image streamed by Flasher::readBack. -/
inductive FileData where
  | ini (sectionName : String) (entries : List (String × String))
  | flashImage
deriving DecidableEq, Repr

/-- A device together with the answers of its query interface and of its
Flasher.  Each q_ field is one xrt_core::device_query request: `some v` means
the query answers v (property-tree values are kept as the strings ptree stores),
`none` means the query raises xrt_core::query::exception.
`flasherValid` is Flasher::isValid after constructing Flasher(deviceId);
`flasherReadBack` is the outcome of Flasher::readBack: `none` for success
(the flash image is streamed to the output file), `some msg` for a raised
std::exception whose what() is msg. -/
structure Device where
  deviceId : Nat
  q_config_mailbox_channel_disable : Option String
  q_config_mailbox_channel_switch : Option String
  q_config_xclbin_change : Option String
  q_cache_xclbin : Option String
  q_is_mfg : Option Bool
  q_is_recovery : Option Bool
  q_is_versal : Option Bool
  q_xgq_scaling_enabled : Option String
  q_xgq_scaling_power_override : Option String
  q_xgq_scaling_temp_override : Option String
  q_xmc_scaling_enabled : Option String
  q_xmc_scaling_power_override : Option String
  q_xmc_scaling_temp_override : Option String
  flasherValid : Bool
  flasherReadBack : Option String
deriving DecidableEq, Repr

/-- Observable outcome of flash_dump / config_dump: the exception escaping the
routine, the stdout lines, the stderr lines, and the file written at the output
path (none when nothing was written). -/
structure DumpOut where
  exn : Option Exn
  cout : List String
  cerr : List String
  file : Option FileData
deriving DecidableEq, Repr

/-- flash_dump (SubCmdDump.cpp:28-47).  Constructs Flasher(device id); when
isValid() is false the source builds xrt_core::error(...) as a plain expression
statement - the temporary is discarded, nothing is thrown and nothing printed -
and returns.  Otherwise readBack streams the image; an exception from readBack
is printed and re-raised as operation_canceled. -/
def flash_dump (dev : Device) (m_output : String) : DumpOut :=
  if !dev.flasherValid then
    { exn := none, cout := [], cerr := [], file := none }
  else
    match dev.flasherReadBack with
    | none => { exn := none, cout := [], cerr := [], file := some FileData.flashImage }
    | some msg =>
        { exn := some Exn.opCanceled, cout := [],
          cerr := ["  ERROR: " ++ msg], file := none }

/-- is_supported (SubCmdDump.cpp:49-69).  Probes is_mfg and is_recovery, each
in its own try block catching the query exception (default false); when either
is true prints the restricted-state message to stderr and returns false. -/
def is_supported (dev : Device) : Bool × List String :=
  let is_mfg := dev.q_is_mfg.getD false
  let is_recovery := dev.q_is_recovery.getD false
  if is_mfg || is_recovery then
    (false,
      ["This operation is not supported with " ++
        (if is_mfg then "manufacturing" else "recovery") ++ " image."])
  else
    (true, [])

/-- The scaling-control block of config_dump (one try around the three puts,
SubCmdDump.cpp:93-97 resp. 99-103): each put runs in order; the first query
exception jumps to the catch, keeping the entries already put. -/
def scalingPuts (e p t : Option String) : List (String × String) :=
  match e, p, t with
  | none, _, _ => []
  | some ev, none, _ => [("scaling_enabled", ev)]
  | some ev, some pv, none =>
      [("scaling_enabled", ev), ("scaling_power_override", pv)]
  | some ev, some pv, some tv =>
      [("scaling_enabled", ev), ("scaling_power_override", pv),
       ("scaling_temp_override", tv)]

/-- The three scaling queries of the family selected by the is_versal flag
(xgq family when versal, xmc family otherwise). -/
def scalingQueries (dev : Device) (isVersal : Bool) :
    Option String × Option String × Option String :=
  if isVersal then
    (dev.q_xgq_scaling_enabled, dev.q_xgq_scaling_power_override,
     dev.q_xgq_scaling_temp_override)
  else
    (dev.q_xmc_scaling_enabled, dev.q_xmc_scaling_power_override,
     dev.q_xmc_scaling_temp_override)

/-- config_dump (SubCmdDump.cpp:79-111).  The four mandatory puts run outside
any try block: a query exception there escapes the routine before anything is
written.  Then is_supported gates the scaling block; inside it the is_versal
query is likewise unguarded, while the three scaling puts of the selected
family share one catch.  write_ini runs last and the success line is printed
to stdout. -/
def config_dump (dev : Device) (m_output : String) : DumpOut :=
  match dev.q_config_mailbox_channel_disable, dev.q_config_mailbox_channel_switch,
        dev.q_config_xclbin_change, dev.q_cache_xclbin with
  | some v1, some v2, some v3, some v4 =>
      let mand : List (String × String) :=
        [("mailbox_channel_disable", v1), ("mailbox_channel_switch", v2),
         ("xclbin_change", v3), ("cache_xclbin", v4)]
      let sup := is_supported dev
      if sup.1 then
        match dev.q_is_versal with
        | none =>
            { exn := some Exn.queryExn, cout := [], cerr := sup.2, file := none }
        | some isVersal =>
            let q := scalingQueries dev isVersal
            { exn := none,
              cout := ["config has been dumped to " ++ m_output],
              cerr := sup.2,
              file := some (FileData.ini "Device" (mand ++ scalingPuts q.1 q.2.1 q.2.2)) }
      else
        { exn := none,
          cout := ["config has been dumped to " ++ m_output],
          cerr := sup.2,
          file := some (FileData.ini "Device" mand) }
  | _, _, _, _ => { exn := some Exn.queryExn, cout := [], cerr := [], file := none }

/-- The parsed options of the dump subcommand (the SubCmdDump members). -/
structure Request where
  m_device : String
  m_output : String
  m_flash : Bool
  m_config : Bool
  m_help : Bool
deriving DecidableEq, Repr

/-- Which dump routine the dispatcher entered. -/
inductive DumpPath where
  | flash
  | config
deriving DecidableEq, Repr

/-- Environment of one execute call: the outcome of XBU::get_device (none when
it raises std::runtime_error with message resolveErrMsg), whether
boost::filesystem::exists holds of the output path, and XBU::getForce. -/
structure Env where
  resolvedDevice : Option Device
  resolveErrMsg : String
  outputExists : Bool
  force : Bool
deriving DecidableEq, Repr

/-- Observable outcome of SubCmdDump::execute: as DumpOut, plus the dump path
entered (none when no dump routine ran). -/
structure ExecOut where
  exn : Option Exn
  cout : List String
  cerr : List String
  file : Option FileData
  path : Option DumpPath
deriving DecidableEq, Repr

/-- Tag the outcome of a dump routine with the path the dispatcher took. -/
def liftDump (d : DumpOut) (p : DumpPath) : ExecOut :=
  { exn := d.exn, cout := d.cout, cerr := d.cerr, file := d.file, path := some p }

/-- SubCmdDump::execute (SubCmdDump.cpp:140-201).  Help short-circuits to a
normal return; device resolution failure is printed and re-raised as
operation_canceled; the output guard (empty path, then existing path without
force) raises operation_canceled before any dump path; then the flash flag is
checked before the config flag and neither flag raises operation_canceled. -/
def execute (req : Request) (env : Env) : ExecOut :=
  if req.m_help then
    { exn := none, cout := [], cerr := [], file := none, path := none }
  else
    match env.resolvedDevice with
    | none =>
        { exn := some Exn.opCanceled, cout := [],
          cerr := ["ERROR: " ++ env.resolveErrMsg], file := none, path := none }
    | some device =>
        if req.m_output.isEmpty then
          { exn := some Exn.opCanceled, cout := [],
            cerr := ["ERROR: Please specify an output file using --output option"],
            file := none, path := none }
        else if env.outputExists && !env.force then
          { exn := some Exn.opCanceled, cout := [],
            cerr := ["m_output file already exists: " ++ req.m_output],
            file := none, path := none }
        else if req.m_flash then
          liftDump (flash_dump device req.m_output) DumpPath.flash
        else if req.m_config then
          liftDump (config_dump device req.m_output) DumpPath.config
        else
          { exn := some Exn.opCanceled, cout := [],
            cerr := ["ERROR: Please specify a valid option to determine the type of dump"],
            file := none, path := none }

/-- The entries of the INI file written at the output path ([] when no INI file
was written). -/
def iniEntries : Option FileData → List (String × String)
  | some (FileData.ini _ es) => es
  | _ => []

/-- The keys of the INI file written at the output path, in file order. -/
def fileKeys (f : Option FileData) : List String :=
  (iniEntries f).map Prod.fst

/-- The four mandatory configuration keys, in the order config_dump puts them. -/
def mandatoryKeys : List String :=
  ["mailbox_channel_disable", "mailbox_channel_switch", "xclbin_change", "cache_xclbin"]

/-- The three scaling-control keys, in the order the scaling block puts them. -/
def scalingKeyNames : List String :=
  ["scaling_enabled", "scaling_power_override", "scaling_temp_override"]

/-- How many scaling-control keys the written INI file holds. -/
def scalingCount (f : Option FileData) : Nat :=
  ((iniEntries f).filter (fun kv => scalingKeyNames.contains kv.1)).length

/-- Fully answered, well-behaved device used as the base of the concrete test
devices below: every query answers (the mandatory values of the spec scenario),
the device is neither manufacturing nor recovery, non-versal, the Flasher is
valid and readBack succeeds. -/
def devOk : Device :=
  { deviceId := 0,
    q_config_mailbox_channel_disable := some "0x20",
    q_config_mailbox_channel_switch := some "0",
    q_config_xclbin_change := some "1",
    q_cache_xclbin := some "0",
    q_is_mfg := some false,
    q_is_recovery := some false,
    q_is_versal := some false,
    q_xgq_scaling_enabled := some "1",
    q_xgq_scaling_power_override := some "0",
    q_xgq_scaling_temp_override := some "85",
    q_xmc_scaling_enabled := some "1",
    q_xmc_scaling_power_override := some "0",
    q_xmc_scaling_temp_override := some "85",
    flasherValid := true,
    flasherReadBack := none }

/-- An environment where the device resolves and the output path is fresh. -/
def envOk (dev : Device) : Env :=
  { resolvedDevice := some dev, resolveErrMsg := "", outputExists := false, force := false }

/-- Device of claim C1: its Flasher reports an invalid index. -/
def c1Device : Device := { devOk with deviceId := 7, flasherValid := false }

/-- Request of claim C1: flash mode to a fresh output file. -/
def c1Req : Request :=
  { m_device := "0000:d8:00.0", m_output := "flash.bin",
    m_flash := true, m_config := false, m_help := false }

/-- C1: a flash-mode request on a device whose identity cannot open a valid
flash channel indeed writes no file, but - against the claim - the operation
completes normally (exn is none, no canceled-operation signal) and no
diagnostic line is emitted: at SubCmdDump.cpp:38 the error object holding the
offending index is built as a discarded temporary, without a throw, and
flash_dump just returns. -/
theorem C1_invalid_flasher_completes_normally :
    (execute c1Req (envOk c1Device)).file = none ∧
    (execute c1Req (envOk c1Device)).exn = none ∧
    (execute c1Req (envOk c1Device)).cerr = [] ∧
    (execute c1Req (envOk c1Device)).path = some DumpPath.flash :=
  ⟨rfl, rfl, rfl, rfl⟩

/-- Device of claim C2: non-restricted, non-versal; exactly one of the three
xmc scaling queries (the power override) fails, the other two answer. -/
def c2Device : Device := { devOk with q_xmc_scaling_power_override := none }

/-- C2 counterexample: on c2Device exactly one of the three scaling queries
fails (the power override) and the dump is not aborted, yet the snapshot does
not contain the other two scaling keys: the temp override key is also missing,
because the three puts share one catch and the failure skips the tail of the
group. -/
theorem C2_cex :
    c2Device.q_xmc_scaling_enabled.isSome = true ∧
    c2Device.q_xmc_scaling_power_override = none ∧
    c2Device.q_xmc_scaling_temp_override.isSome = true ∧
    (config_dump c2Device "cfg.ini").exn = none ∧
    fileKeys (config_dump c2Device "cfg.ini").file = mandatoryKeys ++ ["scaling_enabled"] ∧
    (fileKeys (config_dump c2Device "cfg.ini").file).contains "scaling_temp_override" = false := by
  refine ⟨rfl, rfl, rfl, rfl, rfl, rfl⟩

/-- C2 (amended): on a non-restricted device whose mandatory queries and
is_versal query answer, the configuration dump is not aborted and a scaling
query failure removes the failed key and every later scaling key of the fixed
order (enabled, power, temp), keeping the earlier ones: the enabled key is
present iff its query answered, the power key iff the enabled and power
queries answered, the temp key iff all three answered. -/
theorem C2_scaling_group_tail (dev : Device) (out : String) (v : Bool)
    (h1 : dev.q_config_mailbox_channel_disable.isSome = true)
    (h2 : dev.q_config_mailbox_channel_switch.isSome = true)
    (h3 : dev.q_config_xclbin_change.isSome = true)
    (h4 : dev.q_cache_xclbin.isSome = true)
    (h5 : (is_supported dev).1 = true)
    (h6 : dev.q_is_versal = some v) :
    (config_dump dev out).exn = none ∧
    ((fileKeys (config_dump dev out).file).contains "scaling_enabled"
        = (scalingQueries dev v).1.isSome) ∧
    ((fileKeys (config_dump dev out).file).contains "scaling_power_override"
        = ((scalingQueries dev v).1.isSome && (scalingQueries dev v).2.1.isSome)) ∧
    ((fileKeys (config_dump dev out).file).contains "scaling_temp_override"
        = ((scalingQueries dev v).1.isSome && (scalingQueries dev v).2.1.isSome
            && (scalingQueries dev v).2.2.isSome)) := by
  obtain ⟨v1, e1⟩ := Option.isSome_iff_exists.mp h1
  obtain ⟨v2, e2⟩ := Option.isSome_iff_exists.mp h2
  obtain ⟨v3, e3⟩ := Option.isSome_iff_exists.mp h3
  obtain ⟨v4, e4⟩ := Option.isSome_iff_exists.mp h4
  rcases he : (scalingQueries dev v).1 with _ | ev <;>
  rcases hp : (scalingQueries dev v).2.1 with _ | pv <;>
  rcases ht : (scalingQueries dev v).2.2 with _ | tv <;>
    simp [config_dump, e1, e2, e3, e4, h5, h6, fileKeys, iniEntries, mandatoryKeys,
      scalingPuts, he, hp, ht]

/-- C2 witness: the amended statement instantiated at c2Device, where the
power override query is the one that fails. -/
theorem C2_scaling_group_tail_witness :
    (config_dump c2Device "cfg.ini").exn = none ∧
    ((fileKeys (config_dump c2Device "cfg.ini").file).contains "scaling_enabled"
        = (scalingQueries c2Device false).1.isSome) ∧
    ((fileKeys (config_dump c2Device "cfg.ini").file).contains "scaling_power_override"
        = ((scalingQueries c2Device false).1.isSome
            && (scalingQueries c2Device false).2.1.isSome)) ∧
    ((fileKeys (config_dump c2Device "cfg.ini").file).contains "scaling_temp_override"
        = ((scalingQueries c2Device false).1.isSome
            && (scalingQueries c2Device false).2.1.isSome
            && (scalingQueries c2Device false).2.2.isSome)) :=
  C2_scaling_group_tail c2Device "cfg.ini" false rfl rfl rfl rfl rfl rfl

/-- Device of claim C3: non-restricted, non-versal; the xmc temp override
query fails, the other two xmc scaling queries answer. -/
def c3Device : Device := { devOk with q_xmc_scaling_temp_override := none }

/-- C3 counterexample: on c3Device the snapshot does contain the four
mandatory keys, but it holds exactly two scaling keys - refuting the claim
that the number of scaling keys is always exactly 0 or exactly 3. -/
theorem C3_cex :
    fileKeys (config_dump c3Device "cfg.ini").file
      = mandatoryKeys ++ ["scaling_enabled", "scaling_power_override"] ∧
    scalingCount (config_dump c3Device "cfg.ini").file = 2 ∧
    ¬ (scalingCount (config_dump c3Device "cfg.ini").file = 0 ∨
       scalingCount (config_dump c3Device "cfg.ini").file = 3) := by
  refine ⟨rfl, rfl, by decide⟩

/-- The keys put by the scaling block always form a front segment (of length
0, 1, 2 or 3) of the fixed scaling key order. -/
lemma scalingPuts_keys (e p t : Option String) :
    ∃ k, k ≤ 3 ∧ (scalingPuts e p t).map Prod.fst = scalingKeyNames.take k := by
  rcases e with _ | ev
  · exact ⟨0, by norm_num, rfl⟩
  rcases p with _ | pv
  · exact ⟨1, by norm_num, rfl⟩
  rcases t with _ | tv
  · exact ⟨2, by norm_num, rfl⟩
  · exact ⟨3, by norm_num, rfl⟩

/-- C3 (amended): every configuration dump that completes writes one section
named Device whose keys are exactly the four mandatory keys followed by a
front segment of the fixed scaling key order: 0, 1, 2 or 3 scaling keys (1 or
2 occur when a later scaling query of the group fails after an earlier one
answered). -/
theorem C3_snapshot_keys (dev : Device) (out : String)
    (h : (config_dump dev out).exn = none) :
    ∃ k es, k ≤ 3 ∧ (config_dump dev out).file = some (FileData.ini "Device" es) ∧
      es.map Prod.fst = mandatoryKeys ++ scalingKeyNames.take k := by
  rcases e1 : dev.q_config_mailbox_channel_disable with _ | v1 <;>
  rcases e2 : dev.q_config_mailbox_channel_switch with _ | v2 <;>
  rcases e3 : dev.q_config_xclbin_change with _ | v3 <;>
  rcases e4 : dev.q_cache_xclbin with _ | v4 <;>
    simp_all [config_dump]
  cases hs : (is_supported dev).1 <;> simp [hs] at h ⊢
  · exact ⟨0, by norm_num, rfl⟩
  · rcases hv : dev.q_is_versal with _ | v <;> simp [hv] at h ⊢
    obtain ⟨k, hk, hkeys⟩ :=
      scalingPuts_keys (scalingQueries dev v).1 (scalingQueries dev v).2.1
        (scalingQueries dev v).2.2
    exact ⟨k, hk, by simp [hkeys, mandatoryKeys]⟩

/-- C3 witness: the amended statement instantiated at the fully answered
device, where all three scaling queries succeed. -/
theorem C3_snapshot_keys_witness :
    ∃ k es, k ≤ 3 ∧ (config_dump devOk "cfg.ini").file = some (FileData.ini "Device" es) ∧
      es.map Prod.fst = mandatoryKeys ++ scalingKeyNames.take k :=
  C3_snapshot_keys devOk "cfg.ini" rfl

/-- Device of claim C4: non-restricted, mandatory queries answer, but the
is_versal query fails. -/
def c4Device : Device := { devOk with q_is_versal := none }

/-- C4 counterexample: on a non-restricted device whose is_versal query is
unanswerable the configuration dump does not map the failure to a default
variant: the query exception escapes config_dump and no file is written, since
the is_versal query at SubCmdDump.cpp:91 sits outside every try block. -/
theorem C4_cex :
    (config_dump c4Device "cfg.ini").exn = some Exn.queryExn ∧
    (config_dump c4Device "cfg.ini").file = none :=
  ⟨rfl, rfl⟩

/-- C4 (amended): on a non-restricted device whose mandatory queries answer,
an unanswerable is_versal query is not caught: the query exception propagates
out of the configuration dump and no file is written (only the restricted
state probes of is_supported are defaulted). -/
theorem C4_versal_query_propagates (dev : Device) (out : String)
    (h1 : dev.q_config_mailbox_channel_disable.isSome = true)
    (h2 : dev.q_config_mailbox_channel_switch.isSome = true)
    (h3 : dev.q_config_xclbin_change.isSome = true)
    (h4 : dev.q_cache_xclbin.isSome = true)
    (h5 : (is_supported dev).1 = true)
    (h6 : dev.q_is_versal = none) :
    (config_dump dev out).exn = some Exn.queryExn ∧
    (config_dump dev out).file = none := by
  obtain ⟨v1, e1⟩ := Option.isSome_iff_exists.mp h1
  obtain ⟨v2, e2⟩ := Option.isSome_iff_exists.mp h2
  obtain ⟨v3, e3⟩ := Option.isSome_iff_exists.mp h3
  obtain ⟨v4, e4⟩ := Option.isSome_iff_exists.mp h4
  simp [config_dump, e1, e2, e3, e4, h5, h6]

/-- C4 witness: the amended statement instantiated at c4Device. -/
theorem C4_versal_query_propagates_witness :
    (config_dump c4Device "cfg.ini").exn = some Exn.queryExn ∧
    (config_dump c4Device "cfg.ini").file = none :=
  C4_versal_query_propagates c4Device "cfg.ini" rfl rfl rfl rfl rfl rfl

/-- Device of claim C5: the mandatory mailbox_channel_disable query fails. -/
def c5Device : Device := { devOk with q_config_mailbox_channel_disable := none }

/-- Request of claim C5: config mode to a fresh output file. -/
def c5Req : Request :=
  { m_device := "", m_output := "cfg.ini",
    m_flash := false, m_config := true, m_help := false }

/-- C5 counterexample: when a mandatory query is unanswerable the dump does
fail and no file is written, but the exception surfacing to the caller of
execute is the raw query exception, not a canceled-operation signal, and no
diagnostic line is printed: nothing around config_dump converts the error. -/
theorem C5_cex :
    (execute c5Req (envOk c5Device)).exn = some Exn.queryExn ∧
    (execute c5Req (envOk c5Device)).exn ≠ some Exn.opCanceled ∧
    (execute c5Req (envOk c5Device)).file = none ∧
    (execute c5Req (envOk c5Device)).cerr = [] := by
  refine ⟨rfl, by decide, rfl, rfl⟩

/-- C5 (amended): when any one of the four mandatory queries is unanswerable
the whole configuration dump fails and no file is written; the query exception
is propagated out of execute unchanged (not swallowed), but it is not
converted to a canceled-operation error by this code. -/
theorem C5_mandatory_query_failure (req : Request) (env : Env) (dev : Device)
    (hh : req.m_help = false) (hd : env.resolvedDevice = some dev)
    (ho : req.m_output.isEmpty = false)
    (hg : (env.outputExists && !env.force) = false)
    (hf : req.m_flash = false) (hc : req.m_config = true)
    (hq : dev.q_config_mailbox_channel_disable = none ∨
          dev.q_config_mailbox_channel_switch = none ∨
          dev.q_config_xclbin_change = none ∨
          dev.q_cache_xclbin = none) :
    (execute req env).exn = some Exn.queryExn ∧
    (execute req env).exn ≠ some Exn.opCanceled ∧
    (execute req env).file = none ∧
    (execute req env).path = some DumpPath.config := by
  have hrun : execute req env = liftDump (config_dump dev req.m_output) DumpPath.config := by
    simp [execute, hh, hd, ho, hg, hf, hc]
  rw [hrun]
  rcases e1 : dev.q_config_mailbox_channel_disable with _ | v1 <;>
  rcases e2 : dev.q_config_mailbox_channel_switch with _ | v2 <;>
  rcases e3 : dev.q_config_xclbin_change with _ | v3 <;>
  rcases e4 : dev.q_cache_xclbin with _ | v4 <;>
    simp_all [config_dump, liftDump]

/-- C5 witness: the amended statement instantiated at c5Device via execute. -/
theorem C5_mandatory_query_failure_witness :
    (execute c5Req (envOk c5Device)).exn = some Exn.queryExn ∧
    (execute c5Req (envOk c5Device)).exn ≠ some Exn.opCanceled ∧
    (execute c5Req (envOk c5Device)).file = none ∧
    (execute c5Req (envOk c5Device)).path = some DumpPath.config :=
  C5_mandatory_query_failure c5Req (envOk c5Device) c5Device rfl rfl rfl rfl rfl rfl
    (Or.inl rfl)

/-- C6: on a device flagged restricted (manufacturing image or recovery image
answering true) whose mandatory queries answer, the configuration dump
completes, the written section Device holds exactly the four mandatory keys
and no scaling key, regardless of the architecture variant (the is_versal
field is unconstrained and never queried), and the informational line naming
the detected restricted state is emitted. -/
theorem C6_restricted_only_mandatory (dev : Device) (out : String)
    (h1 : dev.q_config_mailbox_channel_disable.isSome = true)
    (h2 : dev.q_config_mailbox_channel_switch.isSome = true)
    (h3 : dev.q_config_xclbin_change.isSome = true)
    (h4 : dev.q_cache_xclbin.isSome = true)
    (hr : dev.q_is_mfg.getD false = true ∨ dev.q_is_recovery.getD false = true) :
    (config_dump dev out).exn = none ∧
    (∃ es, (config_dump dev out).file = some (FileData.ini "Device" es) ∧
        es.map Prod.fst = mandatoryKeys) ∧
    (config_dump dev out).cerr =
      ["This operation is not supported with " ++
        (if dev.q_is_mfg.getD false then "manufacturing" else "recovery") ++ " image."] := by
  obtain ⟨v1, e1⟩ := Option.isSome_iff_exists.mp h1
  obtain ⟨v2, e2⟩ := Option.isSome_iff_exists.mp h2
  obtain ⟨v3, e3⟩ := Option.isSome_iff_exists.mp h3
  obtain ⟨v4, e4⟩ := Option.isSome_iff_exists.mp h4
  have hsup : is_supported dev =
      (false, ["This operation is not supported with " ++
        (if dev.q_is_mfg.getD false then "manufacturing" else "recovery") ++ " image."]) := by
    rcases hr with hm | hre
    · simp [is_supported, hm]
    · simp [is_supported, hre]
  refine ⟨?_,
    ⟨[("mailbox_channel_disable", v1), ("mailbox_channel_switch", v2),
      ("xclbin_change", v3), ("cache_xclbin", v4)], ?_, by simp [mandatoryKeys]⟩, ?_⟩ <;>
    simp [config_dump, e1, e2, e3, e4, hsup]

/-- Device of claim C6: a manufacturing image device. -/
def c6Device : Device :=
  { devOk with q_is_mfg := some true, q_is_versal := none }

/-- C6 witness: the statement instantiated at a manufacturing image device
whose is_versal query would not even answer. -/
theorem C6_restricted_only_mandatory_witness :
    (config_dump c6Device "cfg.ini").exn = none ∧
    (∃ es, (config_dump c6Device "cfg.ini").file = some (FileData.ini "Device" es) ∧
        es.map Prod.fst = mandatoryKeys) ∧
    (config_dump c6Device "cfg.ini").cerr =
      ["This operation is not supported with " ++
        (if c6Device.q_is_mfg.getD false then "manufacturing" else "recovery") ++ " image."] :=
  C6_restricted_only_mandatory c6Device "cfg.ini" rfl rfl rfl rfl (Or.inl rfl)

/-- C7: whenever help is not requested, the output path names an existing
filesystem entry and force is not set, execute ends in the canceled-operation
signal, no dump path is entered and nothing is written at the output path (so
an existing file is untouched). -/
theorem C7_existing_output_untouched (req : Request) (env : Env)
    (hh : req.m_help = false) (he : env.outputExists = true) (hf : env.force = false) :
    (execute req env).exn = some Exn.opCanceled ∧
    (execute req env).file = none ∧
    (execute req env).path = none := by
  rcases hd : env.resolvedDevice with _ | dev <;>
    by_cases ho : req.m_output.isEmpty = true <;>
      simp [execute, hh, he, hf, hd, ho]

/-- Environment of claim C7: the device resolves, the output file already
exists and force is off. -/
def c7Env : Env :=
  { resolvedDevice := some devOk, resolveErrMsg := "",
    outputExists := true, force := false }

/-- Request of claim C7: flash mode to the already existing output file. -/
def c7Req : Request :=
  { m_device := "", m_output := "flash.bin",
    m_flash := true, m_config := false, m_help := false }

/-- C7 witness: the statement instantiated at a request whose output file
already exists while force is off. -/
theorem C7_existing_output_untouched_witness :
    (execute c7Req c7Env).exn = some Exn.opCanceled ∧
    (execute c7Req c7Env).file = none ∧
    (execute c7Req c7Env).path = none :=
  C7_existing_output_untouched c7Req c7Env rfl rfl rfl

/-- C8: whenever help is not requested and the output path is empty, execute
ends in the canceled-operation signal, no dump path is entered and no file is
written: the output guard runs before either extraction path. -/
theorem C8_empty_output_canceled (req : Request) (env : Env)
    (hh : req.m_help = false) (ho : req.m_output = "") :
    (execute req env).exn = some Exn.opCanceled ∧
    (execute req env).file = none ∧
    (execute req env).path = none := by
  rcases hd : env.resolvedDevice with _ | dev <;>
    simp [execute, hh, ho, hd, String.isEmpty]

/-- Request of claim C8: config mode with an empty output path. -/
def c8Req : Request :=
  { m_device := "", m_output := "",
    m_flash := false, m_config := true, m_help := false }

/-- C8 witness: the statement instantiated at a request with an empty output
path. -/
theorem C8_empty_output_canceled_witness :
    (execute c8Req (envOk devOk)).exn = some Exn.opCanceled ∧
    (execute c8Req (envOk devOk)).file = none ∧
    (execute c8Req (envOk devOk)).path = none :=
  C8_empty_output_canceled c8Req (envOk devOk) rfl rfl

/-- C9: the mode dispatch.  First part: when help is off, the device resolves
and the output guard passes, a request with both mode flags set takes the
flash path (the check order decides the tie) and the outcome is exactly the
flash_dump outcome - the config path is never entered.  Second part: when
help is off and neither mode flag is set, execute ends in the
canceled-operation signal, no dump path runs and no file is written. -/
theorem C9_mode_dispatch :
    (∀ (req : Request) (env : Env) (dev : Device),
      req.m_help = false → env.resolvedDevice = some dev →
      req.m_output.isEmpty = false → (env.outputExists && !env.force) = false →
      req.m_flash = true → req.m_config = true →
      (execute req env).path = some DumpPath.flash ∧
      execute req env = liftDump (flash_dump dev req.m_output) DumpPath.flash) ∧
    (∀ (req : Request) (env : Env),
      req.m_help = false → req.m_flash = false → req.m_config = false →
      (execute req env).exn = some Exn.opCanceled ∧
      (execute req env).file = none ∧
      (execute req env).path = none) := by
  constructor
  · intro req env dev hh hd ho hg hf hc
    have hrun : execute req env = liftDump (flash_dump dev req.m_output) DumpPath.flash := by
      simp [execute, hh, hd, ho, hg, hf]
    exact ⟨by rw [hrun]; rfl, hrun⟩
  · intro req env hh hf hc
    rcases hd : env.resolvedDevice with _ | dev <;>
      by_cases ho : req.m_output.isEmpty = true <;>
        by_cases hg : (env.outputExists && !env.force) = true <;>
          simp [execute, hh, hf, hc, hd, ho, hg]

/-- Request of claim C9, first part: both mode flags set. -/
def c9BothReq : Request :=
  { m_device := "", m_output := "out.bin",
    m_flash := true, m_config := true, m_help := false }

/-- Request of claim C9, second part: neither mode flag set. -/
def c9NeitherReq : Request :=
  { m_device := "", m_output := "out.bin",
    m_flash := false, m_config := false, m_help := false }

/-- C9 witness: both parts instantiated - a both-flag request takes the flash
path, a neither-flag request is canceled without any file. -/
theorem C9_mode_dispatch_witness :
    ((execute c9BothReq (envOk devOk)).path = some DumpPath.flash ∧
     execute c9BothReq (envOk devOk) = liftDump (flash_dump devOk "out.bin") DumpPath.flash) ∧
    ((execute c9NeitherReq (envOk devOk)).exn = some Exn.opCanceled ∧
     (execute c9NeitherReq (envOk devOk)).file = none ∧
     (execute c9NeitherReq (envOk devOk)).path = none) :=
  ⟨C9_mode_dispatch.1 c9BothReq (envOk devOk) devOk rfl rfl rfl rfl rfl rfl,
   C9_mode_dispatch.2 c9NeitherReq (envOk devOk) rfl rfl rfl⟩

/-- C10: atomicity of the configuration path.  Every device query of
config_dump runs before write_ini, so whenever any exception escapes
config_dump no file is written; in particular a failure of any of the four
mandatory queries propagates the query exception and leaves the destination
untouched. -/
theorem C10_no_file_on_query_error (dev : Device) (out : String) :
    ((config_dump dev out).exn ≠ none → (config_dump dev out).file = none) ∧
    ((dev.q_config_mailbox_channel_disable = none ∨
      dev.q_config_mailbox_channel_switch = none ∨
      dev.q_config_xclbin_change = none ∨
      dev.q_cache_xclbin = none) →
      (config_dump dev out).exn = some Exn.queryExn ∧
      (config_dump dev out).file = none) := by
  rcases e1 : dev.q_config_mailbox_channel_disable with _ | v1 <;>
  rcases e2 : dev.q_config_mailbox_channel_switch with _ | v2 <;>
  rcases e3 : dev.q_config_xclbin_change with _ | v3 <;>
  rcases e4 : dev.q_cache_xclbin with _ | v4 <;>
  cases hs : (is_supported dev).1 <;>
  rcases hv : dev.q_is_versal with _ | v <;>
    simp_all [config_dump]

/-- Device of claim C10: the mandatory cache_xclbin query fails. -/
def c10Device : Device := { devOk with q_cache_xclbin := none }

/-- C10 witness: the statement instantiated at a device whose cache_xclbin
query fails - the exception propagates and no file is written. -/
theorem C10_no_file_on_query_error_witness :
    (config_dump c10Device "cfg.ini").file = none ∧
    ((config_dump c10Device "cfg.ini").exn = some Exn.queryExn ∧
     (config_dump c10Device "cfg.ini").file = none) :=
  ⟨(C10_no_file_on_query_error c10Device "cfg.ini").1 (by decide),
   (C10_no_file_on_query_error c10Device "cfg.ini").2 (Or.inr (Or.inr (Or.inr rfl)))⟩
